import Mathlib

/-!
Shallow embedding of the anomaly-detection / risk-scoring core of the
repository (apps/ai-engine/models/anomalyDetector.js and the
AIAnalysisEngine), together with theorems settling the frozen claims.

JavaScript numbers are modelled as real numbers (`ℝ`) in the isolation
forest and anomaly detector (where `Math.log` / `Math.pow` appear), and
polymorphically over a linear ordered field in the analysis engine (whose
arithmetic is rational), so that concrete counterexamples can be evaluated
at `ℚ`.
-/

namespace ThreatAI

/-- JS `x || d` applied to a possibly-missing numeric value: `undefined`
and `0` are falsy, any other number is returned unchanged. -/
def jsOrNum {α : Type} [Zero α] [DecidableEq α] (x : Option α) (d : α) : α :=
  match x with
  | none => d
  | some v => if v = 0 then d else v

/-- JS `s || d` applied to a possibly-missing string: `undefined` and the
empty string are falsy. -/
def jsOrStr (x : Option String) (d : String) : String :=
  match x with
  | none => d
  | some s => if s = "" then d else s

/-- JS `Math.round`: round half toward positive infinity. -/
def jsRound {α : Type} [LinearOrderedField α] [FloorRing α] (x : α) : ℤ :=
  ⌊x + 1 / 2⌋

/-- JS `Math.min(...column)` over a non-empty spread list (0 for the
empty list, which the source never produces at the call sites). -/
def listMin (l : List ℝ) : ℝ :=
  match l with
  | [] => 0
  | h :: t => t.foldl min h

/-- JS `Math.max(...column)` over a non-empty spread list. -/
def listMax (l : List ℝ) : ℝ :=
  match l with
  | [] => 0
  | h :: t => t.foldl max h

/-- Isolation tree node: tagged variant for `{type: 'leaf', size, depth}`
versus `{type: 'internal', feature, splitValue, left, right}`. -/
inductive IsoTree : Type
  | leaf (size : ℕ) (depth : ℕ)
  | internal (feature : ℕ) (splitValue : ℝ) (left right : IsoTree)

/-- State of an `IsolationForest` instance. -/
structure IsolationForest : Type where
  numTrees : ℕ
  subsampleSize : ℕ
  maxDepth : ℕ
  trees : List IsoTree
  trained : Bool

/-- `new IsolationForest({numTrees: 100, subsampleSize: 256})` as built by
the `AnomalyDetector` constructor: `maxDepth` defaults to
`Math.ceil(Math.log2(subsampleSize))`. -/
def mkIsolationForest : IsolationForest :=
  { numTrees := 100
    subsampleSize := 256
    maxDepth := Nat.clog 2 256
    trees := []
    trained := false }

namespace IsolationForest

/-- `c(n)`: average path length of unsuccessful BST search, exactly as in
the source: `if (n <= 1) return 0; return 2 * (Math.log(n - 1) +
0.5772156649) - (2 * (n - 1) / n)`. -/
noncomputable def c (n : ℝ) : ℝ :=
  if n ≤ 1 then 0 else 2 * (Real.log (n - 1) + 0.5772156649) - 2 * (n - 1) / n

/-- `pathLength(x, tree, depth)`: walk from the root following
`x[feature] < splitValue`, and at a leaf return `depth + c(size)`. -/
noncomputable def pathLength (x : List ℝ) : IsoTree → ℕ → ℝ
  | .leaf size _, depth => depth + c size
  | .internal feature splitValue left right, depth =>
      if x.getD feature 0 < splitValue then pathLength x left (depth + 1)
      else pathLength x right (depth + 1)

/-- The per-row score computed inside `predict`: average path length over
all trees divided by `numTrees`, then `Math.pow(2, -avg / c(subsampleSize))`. -/
noncomputable def rowScore (F : IsolationForest) (x : List ℝ) : ℝ :=
  let avgPathLength := ((F.trees.map (fun t => pathLength x t 0)).sum) / F.numTrees
  (2 : ℝ) ^ (-avgPathLength / c F.subsampleSize)

/-- Forest-level errors. -/
inductive ForestErr : Type
  | notTrained
  deriving DecidableEq

/-- `predict(X)`: throws when untrained, otherwise one score per row. -/
noncomputable def predict (F : IsolationForest) (X : List (List ℝ)) :
    Except ForestErr (List ℝ) :=
  if F.trained then .ok (X.map (rowScore F)) else .error .notTrained

/-- `randomSample(n, k)` with the stream `g` standing for successive
`Math.random()` draws (indexed from `k0`): repeatedly splice a uniformly
chosen element out of the remaining index list. Returns the sample and the
next unused random index. -/
noncomputable def randomSample (g : ℕ → ℝ) : ℕ → List ℕ → ℕ → List ℕ × ℕ
  | 0, _, k0 => ([], k0)
  | kk + 1, idxs, k0 =>
      let r := Int.toNat ⌊g k0 * idxs.length⌋
      let x := idxs.getD r 0
      let rest := idxs.take r ++ idxs.drop (r + 1)
      let (s, k1) := randomSample g kk rest (k0 + 1)
      (x :: s, k1)

/-- `buildTree(X, depth)` threading the random stream index. Leaves are
emitted when the depth cap is hit, the partition has at most one row, the
chosen feature is constant, or a split would leave one side empty. -/
noncomputable def buildTree (g : ℕ → ℝ) (maxDepth : ℕ) (X : List (List ℝ))
    (depth : ℕ) (k0 : ℕ) : IsoTree × ℕ :=
  if _h : maxDepth ≤ depth ∨ X.length ≤ 1 then (.leaf X.length depth, k0)
  else
    let m := (X.headD []).length
    let feature := Int.toNat ⌊g k0 * m⌋
    let column := X.map (fun row => row.getD feature 0)
    let minVal := listMin column
    let maxVal := listMax column
    if minVal = maxVal then (.leaf X.length depth, k0 + 1)
    else
      let splitValue := g (k0 + 1) * (maxVal - minVal) + minVal
      let leftData := X.filter (fun row => decide (row.getD feature 0 < splitValue))
      let rightData := X.filter (fun row => decide (¬ row.getD feature 0 < splitValue))
      if leftData.length = 0 ∨ rightData.length = 0 then (.leaf X.length depth, k0 + 2)
      else
        let (leftTree, k1) := buildTree g maxDepth leftData (depth + 1) (k0 + 2)
        let (rightTree, k2) := buildTree g maxDepth rightData (depth + 1) k1
        (.internal feature splitValue leftTree rightTree, k2)
termination_by maxDepth - depth
decreasing_by
  all_goals omega

/-- The `fit` loop body repeated `count` times: draw a subsample without
replacement and build one tree from it. -/
noncomputable def fitTrees (g : ℕ → ℝ) (maxDepth subsampleSize : ℕ)
    (X : List (List ℝ)) : ℕ → ℕ → List IsoTree × ℕ
  | 0, k0 => ([], k0)
  | count + 1, k0 =>
      let n := X.length
      let (subsampleIndices, k1) := randomSample g (min subsampleSize n)
        (List.range n) k0
      let subsample := subsampleIndices.map (fun i => X.getD i [])
      let (tree, k2) := buildTree g maxDepth subsample 0 k1
      let (rest, k3) := fitTrees g maxDepth subsampleSize X count k2
      (tree :: rest, k3)

/-- `fit(X)`: rebuild the tree collection from scratch and mark the forest
trained. -/
noncomputable def fit (g : ℕ → ℝ) (F : IsolationForest) (X : List (List ℝ)) :
    IsolationForest :=
  { F with trees := (fitTrees g F.maxDepth F.subsampleSize X F.numTrees 0).1
           trained := true }

end IsolationForest

/-- A threat-intelligence feature object: the ten named numeric fields read
by `prepareFeatureVector`, each possibly absent. -/
structure Features : Type where
  confidence_score : Option ℝ := none
  severity_numeric : Option ℝ := none
  temporal_score : Option ℝ := none
  source_reputation : Option ℝ := none
  indicator_frequency : Option ℝ := none
  geographic_risk : Option ℝ := none
  network_entropy : Option ℝ := none
  behavioral_score : Option ℝ := none
  correlation_count : Option ℝ := none
  threat_actor_score : Option ℝ := none

/-- Per-feature entry of the statistical baseline: the code keeps three
parallel arrays (`means`, `stds`, `quantiles`) of equal length (a stated
invariant), fused here into one list of records. -/
structure FeatStat : Type where
  mean : ℝ
  std : ℝ
  q1 : ℝ
  q3 : ℝ
  median : ℝ

/-- One entry of the `factors` list returned by `identifyAnomalyFactors`. -/
structure AnomalyFactor (α : Type) : Type where
  feature : String
  value : α
  expected_mean : α
  z_score : α
  deviation_type : String

/-- Result of `calculateBaselineDeviation`; the empty-baseline branch omits
`max_deviation`, modelled by `Option`. -/
structure BaselineDeviation (α : Type) : Type where
  overall : α
  per_feature : List α
  max_deviation : Option α

/-- Result record of `AnomalyDetector.detect`. -/
structure AnomalyResult (α : Type) : Type where
  score : α
  is_anomaly : Bool
  isolation_score : α
  statistical_score : α
  factors : List (AnomalyFactor α)
  deviation : BaselineDeviation α
  threshold : α

/-- Result record of one `AnomalyDetector.detectBatch` element (the batch
path does not compute factors or deviations). -/
structure BatchResult (α : Type) : Type where
  score : α
  is_anomaly : Bool
  isolation_score : α
  statistical_score : α

/-- Errors thrown by the detector. -/
inductive DetectErr : Type
  | notReady
  | notTrained
  | insufficientData
  deriving DecidableEq

/-- Mutable state of an `AnomalyDetector` instance. -/
structure AnomalyDetector : Type where
  isolationForest : IsolationForest
  statisticalBaseline : List FeatStat
  trainingData : List Features
  isModelReady : Bool
  lastTrainingTime : Option ℝ
  anomalyThreshold : ℝ

/-- `new AnomalyDetector()`. -/
def mkAnomalyDetector : AnomalyDetector :=
  { isolationForest := mkIsolationForest
    statisticalBaseline := []
    trainingData := []
    isModelReady := false
    lastTrainingTime := none
    anomalyThreshold := 0.6 }

namespace AnomalyDetector

/-- `prepareFeatureVector(features)`: the fixed-order ten-element vector,
each field defaulted to 0 by `||`. -/
noncomputable def prepareFeatureVector (f : Features) : List ℝ :=
  [ jsOrNum f.confidence_score 0
  , jsOrNum f.severity_numeric 0
  , jsOrNum f.temporal_score 0
  , jsOrNum f.source_reputation 0
  , jsOrNum f.indicator_frequency 0
  , jsOrNum f.geographic_risk 0
  , jsOrNum f.network_entropy 0
  , jsOrNum f.behavioral_score 0
  , jsOrNum f.correlation_count 0
  , jsOrNum f.threat_actor_score 0 ]

/-- Per-feature contribution inside `detectStatisticalAnomaly`:
`0.7 · min(1, |z|/3) + 0.3 · [outside the 1.5·IQR fences]`. -/
noncomputable def statFeatureContribution (b : FeatStat) (x : ℝ) : ℝ :=
  let zScore := if b.std > 0 then |(x - b.mean) / b.std| else 0
  let zScoreAnomaly := min 1 (zScore / 3)
  let iqr := b.q3 - b.q1
  let lowerBound := b.q1 - 1.5 * iqr
  let upperBound := b.q3 + 1.5 * iqr
  let iqrAnomaly : ℝ := if x < lowerBound ∨ x > upperBound then 1 else 0
  zScoreAnomaly * 0.7 + iqrAnomaly * 0.3

/-- `detectStatisticalAnomaly(featureVector)`: 0.5 with no baseline,
otherwise the per-feature contributions (over indices present in both the
vector and the baseline) summed and divided by the vector length. -/
noncomputable def detectStatisticalAnomaly (baseline : List FeatStat)
    (featureVector : List ℝ) : ℝ :=
  if baseline.isEmpty then 0.5
  else ((featureVector.zip baseline).map
    (fun p => statFeatureContribution p.2 p.1)).sum / featureVector.length

/-- The fixed feature-name table used by `identifyAnomalyFactors`. -/
def featureNames : List String :=
  [ "confidence_score", "severity_numeric", "temporal_score", "source_reputation"
  , "indicator_frequency", "geographic_risk", "network_entropy", "behavioral_score"
  , "correlation_count", "threat_actor_score" ]

/-- `identifyAnomalyFactors`: features with positive std and |z| > 2,
sorted descending by z-score (stable, as JS `sort` is). -/
noncomputable def identifyAnomalyFactors (baseline : List FeatStat)
    (featureVector : List ℝ) : List (AnomalyFactor ℝ) :=
  let indexed := (featureVector.zip baseline).enum
  let factors := indexed.filterMap (fun p =>
    let x := p.2.1
    let b := p.2.2
    let i := p.1
    if b.std > 0 then
      let zScore := |(x - b.mean) / b.std|
      if zScore > 2 then
        some { feature := featureNames.getD i ("feature_" ++ toString i)
               value := x
               expected_mean := b.mean
               z_score := zScore
               deviation_type := if x > b.mean then "above_normal" else "below_normal" }
      else none
    else none)
  factors.mergeSort (fun a b => decide (b.z_score ≤ a.z_score))

/-- `calculateBaselineDeviation`: mean and max of per-feature |z|-scores
(std-0 features contribute 0); `{overall: 0, per_feature: []}` with no
baseline. -/
noncomputable def calculateBaselineDeviation (baseline : List FeatStat)
    (featureVector : List ℝ) : BaselineDeviation ℝ :=
  if baseline.isEmpty then { overall := 0, per_feature := [], max_deviation := none }
  else
    let perFeatureDeviation := (featureVector.zip baseline).map (fun p =>
      if p.2.std > 0 then |(p.1 - p.2.mean) / p.2.std| else 0)
    { overall := perFeatureDeviation.sum / featureVector.length
      per_feature := perFeatureDeviation
      max_deviation := some (listMax perFeatureDeviation) }

/-- `detect(features)`: fails when the model is not ready; otherwise scores
the single vector with the forest, combines `0.7·isolation +
0.3·statistical`, thresholds, and attaches factors and deviation. -/
noncomputable def detect (d : AnomalyDetector) (features : Features) :
    Except DetectErr (AnomalyResult ℝ) :=
  if d.isModelReady = false then .error .notReady
  else
    let featureVector := prepareFeatureVector features
    match d.isolationForest.predict [featureVector] with
    | .error _ => .error .notTrained
    | .ok scores =>
      let isolationScore := scores.headD 0
      let statisticalScore := detectStatisticalAnomaly d.statisticalBaseline featureVector
      let combinedScore := isolationScore * 0.7 + statisticalScore * 0.3
      .ok { score := combinedScore
            is_anomaly := decide (combinedScore > d.anomalyThreshold)
            isolation_score := isolationScore
            statistical_score := statisticalScore
            factors := identifyAnomalyFactors d.statisticalBaseline featureVector
            deviation := calculateBaselineDeviation d.statisticalBaseline featureVector
            threshold := d.anomalyThreshold }

/-- `detectBatch(featuresArray)`: one forest `predict` call over the whole
batch, then the same per-item statistical and combination logic. -/
noncomputable def detectBatch (d : AnomalyDetector) (featuresArray : List Features) :
    Except DetectErr (List (BatchResult ℝ)) :=
  if d.isModelReady = false then .error .notReady
  else
    let featureVectors := featuresArray.map prepareFeatureVector
    match d.isolationForest.predict featureVectors with
    | .error _ => .error .notTrained
    | .ok isolationScores =>
      .ok ((featureVectors.zip isolationScores).map (fun p =>
        let statisticalScore := detectStatisticalAnomaly d.statisticalBaseline p.1
        let combinedScore := p.2 * 0.7 + statisticalScore * 0.3
        { score := combinedScore
          is_anomaly := decide (combinedScore > d.anomalyThreshold)
          isolation_score := p.2
          statistical_score := statisticalScore }))

/-- `calculateStatisticalBaseline(trainingMatrix)`: per feature, the
population mean and std and the quartiles of the sorted column at indices
`⌊0.25·n⌋`, `⌊0.75·n⌋`, `⌊0.5·n⌋` (written with exact `ℕ` division). -/
noncomputable def calculateStatisticalBaseline (trainingMatrix : List (List ℝ)) :
    List FeatStat :=
  let numFeatures := (trainingMatrix.headD []).length
  let numSamples := trainingMatrix.length
  (List.range numFeatures).map (fun i =>
    let column := trainingMatrix.map (fun row => row.getD i 0)
    let mean : ℝ := column.sum / (numSamples : ℝ)
    let variance : ℝ := (column.map (fun v => (v - mean) ^ 2)).sum / (numSamples : ℝ)
    let std := Real.sqrt variance
    let sorted := column.mergeSort (fun a b => decide (a ≤ b))
    { mean := mean
      std := std
      q1 := sorted.getD (numSamples / 4) 0
      q3 := sorted.getD (numSamples * 3 / 4) 0
      median := sorted.getD (numSamples / 2) 0 })

/-- `trainModel()` (with `now` the training timestamp and `g` the random
stream feeding `fit`): rejects fewer than 10 buffered samples before any
mutation, otherwise refits forest and baseline and flips readiness. The
returned state is the detector's state after the call. -/
noncomputable def trainModel (g : ℕ → ℝ) (now : ℝ) (d : AnomalyDetector) :
    AnomalyDetector × Option DetectErr :=
  if d.trainingData.length < 10 then (d, some .insufficientData)
  else
    let trainingMatrix := d.trainingData.map prepareFeatureVector
    ({ d with isolationForest := d.isolationForest.fit g trainingMatrix
              statisticalBaseline := calculateStatisticalBaseline trainingMatrix
              isModelReady := true
              lastTrainingTime := some now }, none)

/-- `updateModel(newData)`: append, evict oldest beyond 10000, retrain only
when the incoming batch exceeds 100 samples (training errors are caught and
ignored, leaving the appended state). -/
noncomputable def updateModel (g : ℕ → ℝ) (now : ℝ) (d : AnomalyDetector)
    (newData : List Features) : AnomalyDetector :=
  let td0 := d.trainingData ++ newData
  let td := if td0.length > 10000 then td0.drop (td0.length - 10000) else td0
  let d1 := { d with trainingData := td }
  if newData.length > 100 then (trainModel g now d1).1 else d1

/-- `isReady()`. -/
def isReady (d : AnomalyDetector) : Bool := d.isModelReady

end AnomalyDetector

/-- The fields of an incoming record read by the engine (`data.data?.…`). -/
structure ThreatData (α : Type) : Type where
  id : Option String := none
  severity_level : Option String := none
  confidence_score : Option α := none
  last_seen : Option α := none

/-- Classifier collaborator result (`ThreatClassifier.classify`,
an external collaborator of this core). -/
structure ClassificationResult (α : Type) : Type where
  type : String
  confidence : α
  probabilities : List α := []
  vectors : List String := []

/-- Behavioral collaborator result (`BehavioralAnalyzer.analyze`,
an external collaborator of this core). -/
structure BehavioralResult (α : Type) : Type where
  pattern : String := ""
  temporal : α
  network : α
  user : α
  deviationScore : Option α := none

/-- The `anomaly_detection` sub-record assembled by `performAnalysis`. -/
structure AnomalyDetectionRec (α : Type) : Type where
  is_anomaly : Bool
  anomaly_score : α
  anomaly_factors : List (AnomalyFactor α)
  baseline_deviation : BaselineDeviation α

/-- The `threat_classification` sub-record assembled by `performAnalysis`. -/
structure ThreatClassificationRec (α : Type) : Type where
  threat_type : String
  confidence : α
  probability_distribution : List α
  attack_vectors : List String

/-- The `behavioral_analysis` sub-record assembled by `performAnalysis`. -/
structure BehavioralAnalysisRec (α : Type) : Type where
  behavior_pattern : String
  temporal_analysis : α
  network_behavior : α
  user_behavior : α
  deviation_score : Option α

/-- The six normalized contributing factors of the risk assessment. -/
structure ContributingFactors (α : Type) : Type where
  severity : α
  confidence : α
  anomaly : α
  behavioral : α
  temporal : α
  asset_criticality : α

/-- The `risk_assessment` record. -/
structure RiskAssessment (α : Type) : Type where
  risk_score : ℤ
  risk_level : String
  contributing_factors : ContributingFactors α
  mitigation_priority : ℤ

/-- One recommendation entry. -/
structure Recommendation : Type where
  priority : String
  action : String
  description : String
  automated : Bool

/-- The `ThreatAnalysis` record assembled by `performAnalysis`. -/
structure Analysis (α : Type) : Type where
  threat_id : String
  risk_assessment : RiskAssessment α
  anomaly_detection : AnomalyDetectionRec α
  threat_classification : ThreatClassificationRec α
  behavioral_analysis : BehavioralAnalysisRec α
  composite_score : ℤ
  confidence_level : ℤ
  recommendations : List Recommendation

/-- Engine configuration: `parseFloat(process.env.ANOMALY_THRESHOLD) || 0.7`
and friends; defaults live in `mkEngineConfig`. -/
structure EngineConfig (α : Type) : Type where
  anomalyThreshold : α
  classificationThreshold : α
  batchSize : ℕ

/-- The constructor defaults (no environment overrides). -/
def mkEngineConfig {α : Type} [LinearOrderedField α] : EngineConfig α :=
  { anomalyThreshold := 0.7
    classificationThreshold := 0.8
    batchSize := 100 }

namespace AIAnalysisEngine

variable {α : Type} [LinearOrderedField α] [FloorRing α]

/-- `mapSeverityToScore(severity)`: fixed five-level table, unknown → 0.6. -/
def mapSeverityToScore (severity : String) : α :=
  if severity = "critical" then 1.0
  else if severity = "high" then 0.8
  else if severity = "medium" then 0.6
  else if severity = "low" then 0.4
  else if severity = "info" then 0.2
  else 0.6

/-- `mapScoreToRiskLevel(score)`: bucket the (unrounded, 0–1 scale)
weighted score. -/
def mapScoreToRiskLevel (score : α) : String :=
  if score ≥ 0.8 then "critical"
  else if score ≥ 0.6 then "high"
  else if score ≥ 0.4 then "medium"
  else "low"

/-- `calculateTemporalRelevance(lastSeen)` with `now` passed explicitly for
`Date.now()`; timestamps are in milliseconds. -/
def calculateTemporalRelevance (lastSeen : Option α) (now : α) : α :=
  match lastSeen with
  | none => 0.5
  | some t =>
    let hoursSince := (now - t) / (1000 * 60 * 60)
    if hoursSince ≤ 1 then 1.0
    else if hoursSince ≤ 24 then 0.8
    else if hoursSince ≤ 168 then 0.6
    else 0.4

/-- The fixed threat-type multiplier table of
`calculateMitigationPriority` (unknown type → 1.0). -/
def threatTypeMultiplier (threat_type : String) : α :=
  if threat_type = "malware" then 1.2
  else if threat_type = "ransomware" then 1.5
  else if threat_type = "apt" then 1.3
  else if threat_type = "phishing" then 1.1
  else if threat_type = "botnet" then 1.2
  else 1.0

/-- `calculateMitigationPriority(riskScore, classification)`: note
`riskScore` here is the unrounded 0–1 weighted score, rounded twice and
clamped only from above. -/
def calculateMitigationPriority (riskScore : α)
    (classification : ThreatClassificationRec α) : ℤ :=
  let basePriority := jsRound (riskScore * 10)
  let multiplier : α := threatTypeMultiplier classification.threat_type
  min 10 (jsRound ((basePriority : α) * multiplier))

/-- `calculateVariance(values)`: population variance. -/
def calculateVariance (values : List α) : α :=
  let mean := values.sum / (values.length : α)
  let squaredDiffs := values.map (fun val => (val - mean) ^ 2)
  squaredDiffs.sum / (values.length : α)

/-- The unrounded weighted sum computed inside `calculateRiskAssessment`. -/
def riskWeightedScore (data : ThreatData α) (anomaly : AnomalyDetectionRec α)
    (behavioral : BehavioralAnalysisRec α) (now : α) : α :=
  let severityScore : α := mapSeverityToScore (jsOrStr data.severity_level "medium")
  let confidenceScore : α := jsOrNum data.confidence_score 50 / 100
  let anomalyScore : α := if anomaly.is_anomaly then anomaly.anomaly_score else 0.3
  let behavioralScore : α := jsOrNum behavioral.deviation_score 0.5
  let temporalScore : α := calculateTemporalRelevance data.last_seen now
  let assetCriticalityScore : α := 0.7
  severityScore * 0.25 + confidenceScore * 0.20 + anomalyScore * 0.20 +
    behavioralScore * 0.15 + temporalScore * 0.10 + assetCriticalityScore * 0.10

/-- `calculateRiskAssessment(data, anomaly, classification, behavioral)`. -/
def calculateRiskAssessment (data : ThreatData α) (anomaly : AnomalyDetectionRec α)
    (classification : ThreatClassificationRec α)
    (behavioral : BehavioralAnalysisRec α) (now : α) : RiskAssessment α :=
  let severityScore : α := mapSeverityToScore (jsOrStr data.severity_level "medium")
  let confidenceScore : α := jsOrNum data.confidence_score 50 / 100
  let anomalyScore : α := if anomaly.is_anomaly then anomaly.anomaly_score else 0.3
  let behavioralScore : α := jsOrNum behavioral.deviation_score 0.5
  let temporalScore : α := calculateTemporalRelevance data.last_seen now
  let assetCriticalityScore : α := 0.7
  let weightedScore : α := severityScore * 0.25 + confidenceScore * 0.20 +
    anomalyScore * 0.20 + behavioralScore * 0.15 + temporalScore * 0.10 +
    assetCriticalityScore * 0.10
  { risk_score := jsRound (weightedScore * 100)
    risk_level := mapScoreToRiskLevel weightedScore
    contributing_factors :=
      { severity := severityScore
        confidence := confidenceScore
        anomaly := anomalyScore
        behavioral := behavioralScore
        temporal := temporalScore
        asset_criticality := assetCriticalityScore }
    mitigation_priority := calculateMitigationPriority weightedScore classification }

/-- Result of `calculateCompositeScore`. -/
structure CompositeResult : Type where
  score : ℤ
  confidence : ℤ

/-- `calculateCompositeScore(analysis)`: weights 0.4/0.25/0.25/0.1 over
risk_score/100, anomaly score, raw classification confidence and
behavioral deviation (`|| 0.5`); confidence from the population variance of
those four values. -/
def calculateCompositeScore (analysis : Analysis α) : CompositeResult :=
  let riskScore : α := (analysis.risk_assessment.risk_score : α) / 100
  let anomalyScore := analysis.anomaly_detection.anomaly_score
  let classificationScore := analysis.threat_classification.confidence
  let behavioralScore : α := jsOrNum analysis.behavioral_analysis.deviation_score 0.5
  let compositeScore : α := riskScore * 0.4 + anomalyScore * 0.25 +
    classificationScore * 0.25 + behavioralScore * 0.1
  let modelScores := [riskScore, anomalyScore, classificationScore, behavioralScore]
  let variance := calculateVariance modelScores
  let confidence : α := max 0.1 (1 - variance)
  { score := jsRound (compositeScore * 100)
    confidence := jsRound (confidence * 100) }

/-- Rank used by the final stable sort of `generateRecommendations`
(`{critical: 0, high: 1, medium: 2, low: 3}`). -/
def priorityRank (p : String) : ℕ :=
  if p = "critical" then 0
  else if p = "high" then 1
  else if p = "medium" then 2
  else 3

/-- `generateRecommendations(analysis)`. -/
def generateRecommendations (analysis : Analysis α) : List Recommendation :=
  let riskScore := analysis.risk_assessment.risk_score
  let isAnomaly := analysis.anomaly_detection.is_anomaly
  let threatType := analysis.threat_classification.threat_type
  let recs : List Recommendation :=
    (if riskScore ≥ 80 then
      [ { priority := "critical", action := "immediate_investigation"
          description := "Immediate investigation required due to high risk score"
          automated := false }
      , { priority := "critical", action := "isolate_affected_assets"
          description := "Consider isolating affected network segments or assets"
          automated := true } ]
    else []) ++
    (if isAnomaly then
      [ { priority := "high", action := "behavioral_analysis"
          description := "Conduct detailed behavioral analysis of anomalous activity"
          automated := false } ]
    else []) ++
    (if threatType = "malware" then
      [ { priority := "high", action := "antivirus_scan"
          description := "Initiate comprehensive antivirus scan on affected systems"
          automated := true } ]
    else if threatType = "phishing" then
      [ { priority := "medium", action := "user_awareness"
          description := "Send security awareness notification to potentially affected users"
          automated := true } ]
    else []) ++
    [ { priority := "low", action := "update_threat_intelligence"
        description := "Update threat intelligence feeds with new indicators"
        automated := true } ]
  recs.mergeSort (fun a b => priorityRank a.priority ≤ priorityRank b.priority)

/-- `performAnalysis(data, features)` with the three model calls passed in
as results: the anomaly detector's result plus the two external
collaborator results (classifier, behavioral analyzer). `now` is the
current time in milliseconds, `nowStr` its string rendering used for the
fallback threat id. -/
def performAnalysis (cfg : EngineConfig α) (data : ThreatData α)
    (anomalyResult : AnomalyResult α) (classificationResult : ClassificationResult α)
    (behavioralResult : BehavioralResult α) (now : α) (nowStr : String) : Analysis α :=
  let anomaly_detection : AnomalyDetectionRec α :=
    { is_anomaly := decide (anomalyResult.score > cfg.anomalyThreshold)
      anomaly_score := anomalyResult.score
      anomaly_factors := anomalyResult.factors
      baseline_deviation := anomalyResult.deviation }
  let threat_classification : ThreatClassificationRec α :=
    { threat_type := classificationResult.type
      confidence := classificationResult.confidence
      probability_distribution := classificationResult.probabilities
      attack_vectors := classificationResult.vectors }
  let behavioral_analysis : BehavioralAnalysisRec α :=
    { behavior_pattern := behavioralResult.pattern
      temporal_analysis := behavioralResult.temporal
      network_behavior := behavioralResult.network
      user_behavior := behavioralResult.user
      deviation_score := behavioralResult.deviationScore }
  let risk_assessment :=
    calculateRiskAssessment data anomaly_detection threat_classification
      behavioral_analysis now
  let draft : Analysis α :=
    { threat_id := jsOrStr data.id ("analysis_" ++ nowStr)
      risk_assessment := risk_assessment
      anomaly_detection := anomaly_detection
      threat_classification := threat_classification
      behavioral_analysis := behavioral_analysis
      composite_score := 0
      confidence_level := 0
      recommendations := [] }
  let compositeResult := calculateCompositeScore draft
  let withComposite := { draft with composite_score := compositeResult.score
                                    confidence_level := compositeResult.confidence }
  { withComposite with recommendations := generateRecommendations withComposite }

end AIAnalysisEngine

/-! ## Helper lemmas about the isolation forest -/

namespace IsolationForest

theorem c_of_le_one {n : ℝ} (h : n ≤ 1) : c n = 0 := by
  unfold c
  rw [if_pos h]

theorem c_of_one_lt {n : ℝ} (h : 1 < n) :
    c n = 2 * (Real.log (n - 1) + 0.5772156649) - 2 * (n - 1) / n := by
  unfold c
  rw [if_neg (not_le.mpr h)]

/-- `c` is strictly positive on naturals `≥ 2` (leaf sizes and subsample
sizes produced by the code). -/
theorem c_nat_pos {n : ℕ} (h : 2 ≤ n) : 0 < c n := by
  rw [c_of_one_lt (by exact_mod_cast Nat.lt_of_lt_of_le one_lt_two h)]
  rcases Nat.lt_or_ge n 3 with h3 | h3
  · interval_cases n
    simp only [Nat.cast_ofNat]
    rw [show (2 : ℝ) - 1 = 1 by norm_num, Real.log_one]
    norm_num
  · have hn1 : (2 : ℝ) ≤ (n : ℝ) - 1 := by
      have : (3 : ℝ) ≤ (n : ℝ) := by exact_mod_cast h3
      linarith
    have hlog : 1 - ((n : ℝ) - 1)⁻¹ ≤ Real.log ((n : ℝ) - 1) :=
      Real.one_sub_inv_le_log_of_pos (by linarith)
    have hinv : ((n : ℝ) - 1)⁻¹ ≤ 1 / 2 := by
      rw [inv_eq_one_div]
      apply div_le_div_of_nonneg_left (by norm_num) (by norm_num) hn1
    have hnpos : (0 : ℝ) < n := by positivity
    have hfrac : 2 * ((n : ℝ) - 1) / n < 2 := by
      rw [div_lt_iff₀ hnpos]
      linarith
    linarith

theorem c_nat_nonneg (n : ℕ) : 0 ≤ c n := by
  rcases Nat.lt_or_ge n 2 with h | h
  · have : (n : ℝ) ≤ 1 := by exact_mod_cast Nat.lt_succ_iff.mp h
    rw [c_of_le_one this]
  · exact le_of_lt (c_nat_pos h)

theorem pathLength_nonneg (x : List ℝ) (t : IsoTree) (depth : ℕ) :
    0 ≤ pathLength x t depth := by
  induction t generalizing depth with
  | leaf size d =>
      unfold pathLength
      exact add_nonneg (Nat.cast_nonneg _) (c_nat_nonneg _)
  | internal feature splitValue left right ihl ihr =>
      unfold pathLength
      split
      · exact ihl _
      · exact ihr _

theorem rowScore_pos_le_one (F : IsolationForest) (x : List ℝ)
    (_hnt : 1 ≤ F.numTrees) (hss : 2 ≤ F.subsampleSize) :
    0 < rowScore F x ∧ rowScore F x ≤ 1 := by
  unfold rowScore
  have havg : 0 ≤ ((F.trees.map (fun t => pathLength x t 0)).sum) / (F.numTrees : ℝ) := by
    apply div_nonneg _ (Nat.cast_nonneg _)
    apply List.sum_nonneg
    intro y hy
    obtain ⟨t, _, rfl⟩ := List.mem_map.mp hy
    exact pathLength_nonneg x t 0
  have hexp : -(((F.trees.map (fun t => pathLength x t 0)).sum) / (F.numTrees : ℝ)) /
      c F.subsampleSize ≤ 0 := by
    apply div_nonpos_iff.mpr
    exact Or.inr ⟨neg_nonpos.mpr havg, le_of_lt (c_nat_pos hss)⟩
  exact ⟨Real.rpow_pos_of_pos (by norm_num) _,
    Real.rpow_le_one_of_one_le_of_nonpos (by norm_num) hexp⟩

end IsolationForest

/-! ## Claim theorems -/

/-- **C6** The normalization function `c` satisfies: `c(n) = 0` for all
`n ≤ 1`; `c(n) = 2·(ln(n−1) + 0.5772156649) − 2·(n−1)/n` for all `n > 1`
(with the Euler–Mascheroni constant as the exact literal `0.5772156649`);
in particular `c(2) = 2·(ln 1 + 0.5772156649) − 2·1/2`. -/
theorem C6_c_formula (n : ℝ) :
    (n ≤ 1 → IsolationForest.c n = 0) ∧
    (1 < n → IsolationForest.c n =
      2 * (Real.log (n - 1) + 0.5772156649) - 2 * (n - 1) / n) ∧
    IsolationForest.c 2 = 2 * (Real.log 1 + 0.5772156649) - 2 * 1 / 2 := by
  refine ⟨IsolationForest.c_of_le_one, IsolationForest.c_of_one_lt, ?_⟩
  rw [IsolationForest.c_of_one_lt (by norm_num)]
  norm_num

/-- Witness for C6 at the concrete inputs `n = 0` and `n = 2`. -/
theorem C6_c_formula_witness :
    IsolationForest.c 0 = 0 ∧
    IsolationForest.c 2 = 2 * (Real.log (2 - 1) + 0.5772156649) - 2 * (2 - 1) / 2 ∧
    IsolationForest.c 2 = 2 * (Real.log 1 + 0.5772156649) - 2 * 1 / 2 :=
  ⟨(C6_c_formula 0).1 (by norm_num),
   (C6_c_formula 2).2.1 (by norm_num),
   (C6_c_formula 0).2.2⟩

/-- **C5** For every trained forest (with the positive tree count and
subsample size ≥ 2 that the code always constructs), `predict` on a matrix
with `n` rows returns exactly `n` scores, each in the half-open interval
`(0, 1]`: each score is `2^(−avgPathLength / c(subsampleSize))` with a
non-negative average path length. -/
theorem C5_predict_shape_and_range (F : IsolationForest) (X : List (List ℝ))
    (htr : F.trained = true) (hnt : 1 ≤ F.numTrees) (hss : 2 ≤ F.subsampleSize) :
    ∃ scores, F.predict X = .ok scores ∧ scores.length = X.length ∧
      ∀ s ∈ scores, 0 < s ∧ s ≤ 1 := by
  refine ⟨X.map (IsolationForest.rowScore F), ?_, List.length_map _ _, ?_⟩
  · unfold IsolationForest.predict
    rw [htr]
    rfl
  · intro s hs
    obtain ⟨x, _, rfl⟩ := List.mem_map.mp hs
    exact IsolationForest.rowScore_pos_le_one F x hnt hss

/-- **C1** For every feature object and every fixed trained model state,
the score, is_anomaly flag, isolation score and statistical score returned
by `detect(f)` are identical to those of the single element returned by
`detectBatch([f])`: both paths combine `0.7·isolation + 0.3·statistical`
over the same vectorization, with no per-call randomness after training. -/
theorem C1_detect_detectBatch_agree (d : AnomalyDetector) (f : Features)
    (hready : d.isModelReady = true) (htr : d.isolationForest.trained = true) :
    ∃ (r : AnomalyResult ℝ) (rb : BatchResult ℝ),
      AnomalyDetector.detect d f = .ok r ∧
      AnomalyDetector.detectBatch d [f] = .ok [rb] ∧
      rb.score = r.score ∧ rb.is_anomaly = r.is_anomaly ∧
      rb.isolation_score = r.isolation_score ∧
      rb.statistical_score = r.statistical_score := by
  simp only [AnomalyDetector.detect, AnomalyDetector.detectBatch,
    IsolationForest.predict, hready, htr, if_true, List.map_cons, List.map_nil,
    List.zip_cons_cons, List.zip_nil_right]
  exact ⟨_, _, rfl, rfl, rfl, rfl, rfl, rfl⟩

/-- **C4** `detect` and `detectBatch` called while the detector is not
ready raise an error rather than returning a default result, and
`IsolationForest.predict` called before `fit` raises an error; conversely,
when the model is ready these calls never produce the NotReady error. -/
theorem C4_not_ready_errors (d : AnomalyDetector) (f : Features)
    (fs : List Features) (F : IsolationForest) (X : List (List ℝ)) :
    (d.isModelReady = false →
      AnomalyDetector.detect d f = .error .notReady ∧
      AnomalyDetector.detectBatch d fs = .error .notReady) ∧
    (F.trained = false → F.predict X = .error .notTrained) ∧
    (d.isModelReady = true →
      AnomalyDetector.detect d f ≠ .error .notReady ∧
      AnomalyDetector.detectBatch d fs ≠ .error .notReady) := by
  refine ⟨fun h => ?_, fun h => ?_, fun h => ?_⟩
  · constructor <;> simp [AnomalyDetector.detect, AnomalyDetector.detectBatch, h]
  · simp [IsolationForest.predict, h]
  · cases htr : d.isolationForest.trained <;>
      constructor <;>
      simp [AnomalyDetector.detect, AnomalyDetector.detectBatch,
        IsolationForest.predict, h, htr]

/-- **C3** `trainModel()` with exactly 9 buffered samples fails with the
InsufficientData error and returns the state unchanged (forest, baseline,
readiness and training time untouched); with exactly 10 buffered samples it
succeeds and afterwards `isReady()` returns true. -/
theorem C3_trainModel_boundary (g : ℕ → ℝ) (now : ℝ) (d : AnomalyDetector) :
    (d.trainingData.length = 9 →
      AnomalyDetector.trainModel g now d = (d, some .insufficientData)) ∧
    (d.trainingData.length = 10 →
      ∃ d', AnomalyDetector.trainModel g now d = (d', none) ∧
        AnomalyDetector.isReady d' = true ∧
        d'.lastTrainingTime = some now) := by
  constructor
  · intro h
    unfold AnomalyDetector.trainModel
    rw [if_pos (by omega)]
  · intro h
    unfold AnomalyDetector.trainModel
    rw [if_neg (by omega)]
    exact ⟨_, rfl, rfl, rfl⟩

/-- `trainModel` never mutates the training buffer itself. -/
theorem trainModel_preserves_buffer (g : ℕ → ℝ) (now : ℝ) (d : AnomalyDetector) :
    (AnomalyDetector.trainModel g now d).1.trainingData = d.trainingData := by
  unfold AnomalyDetector.trainModel
  split <;> rfl

/-- **C9** `updateModel(newSamples)` appends the new samples to the
training buffer, keeps at most 10,000 samples evicting the oldest first
(the retained samples are exactly the suffix of the 10,000 most recent),
and triggers a full `trainModel()` retraining if and only if the incoming
batch has over 100 samples. -/
theorem C9_updateModel_buffer_and_retrain (g : ℕ → ℝ) (now : ℝ)
    (d : AnomalyDetector) (newData : List Features) :
    ((AnomalyDetector.updateModel g now d newData).trainingData =
      (d.trainingData ++ newData).drop ((d.trainingData ++ newData).length - 10000)) ∧
    ((AnomalyDetector.updateModel g now d newData).trainingData.length =
      min (d.trainingData ++ newData).length 10000) ∧
    (newData.length ≤ 100 →
      AnomalyDetector.updateModel g now d newData =
        { d with trainingData := ((d.trainingData ++ newData).drop
            ((d.trainingData ++ newData).length - 10000)) }) ∧
    (newData.length > 100 →
      AnomalyDetector.updateModel g now d newData =
        (AnomalyDetector.trainModel g now
          { d with trainingData := ((d.trainingData ++ newData).drop
              ((d.trainingData ++ newData).length - 10000)) }).1) := by
  have key : ∀ k, (d.trainingData ++ newData).length - 10000 = k →
      AnomalyDetector.updateModel g now d newData =
        (if newData.length > 100 then
          (AnomalyDetector.trainModel g now
            { d with trainingData := ((d.trainingData ++ newData).drop k) }).1
         else { d with trainingData := ((d.trainingData ++ newData).drop k) }) := by
    intro k hk
    unfold AnomalyDetector.updateModel
    dsimp only
    rw [hk]
    have hif : (if (d.trainingData ++ newData).length > 10000 then
        (d.trainingData ++ newData).drop k else d.trainingData ++ newData) =
        (d.trainingData ++ newData).drop k := by
      split
      · rfl
      · rw [show k = 0 from by omega, List.drop_zero]
    rw [hif]
  have hbuf : (AnomalyDetector.updateModel g now d newData).trainingData =
      (d.trainingData ++ newData).drop ((d.trainingData ++ newData).length - 10000) := by
    generalize hk : (d.trainingData ++ newData).length - 10000 = k
    rw [key k hk]
    split
    · rw [trainModel_preserves_buffer]
    · rfl
  refine ⟨hbuf, ?_, fun h => ?_, fun h => ?_⟩
  · rw [hbuf, List.length_drop]
    omega
  · rw [key _ rfl, if_neg (by omega)]
  · rw [key _ rfl, if_pos (by omega)]

/-- A trained forest with default hyperparameters and a single trivial
tree, used to instantiate witnesses. -/
def trainedForest : IsolationForest :=
  { numTrees := 1
    subsampleSize := 256
    maxDepth := Nat.clog 2 256
    trees := [.leaf 1 0]
    trained := true }

/-- Witness for C5: the trained witness forest over a two-row matrix. -/
theorem C5_predict_shape_and_range_witness :
    ∃ scores, trainedForest.predict [[1, 2], [3, 4]] = .ok scores ∧
      scores.length = ([[1, 2], [3, 4]] : List (List ℝ)).length ∧
      ∀ s ∈ scores, 0 < s ∧ s ≤ 1 :=
  C5_predict_shape_and_range trainedForest [[1, 2], [3, 4]] rfl
    (by decide) (by decide)

/-- A neutral baseline entry (mean 0, unit std, degenerate quartiles). -/
def baseStat : FeatStat := { mean := 0, std := 1, q1 := 0, q3 := 0, median := 0 }

/-- A ready detector state with the trained witness forest and a neutral
ten-feature baseline, used to instantiate witnesses. -/
def readyDetector : AnomalyDetector :=
  { isolationForest := trainedForest
    statisticalBaseline := List.replicate 10 baseStat
    trainingData := []
    isModelReady := true
    lastTrainingTime := none
    anomalyThreshold := 0.6 }

/-- A feature object with every field absent (vectorized to all zeros). -/
def zeroFeatures : Features := {}

/-- Witness for C1 at the concrete ready detector and feature object. -/
theorem C1_detect_detectBatch_agree_witness :
    ∃ (r : AnomalyResult ℝ) (rb : BatchResult ℝ),
      AnomalyDetector.detect readyDetector zeroFeatures = .ok r ∧
      AnomalyDetector.detectBatch readyDetector [zeroFeatures] = .ok [rb] ∧
      rb.score = r.score ∧ rb.is_anomaly = r.is_anomaly ∧
      rb.isolation_score = r.isolation_score ∧
      rb.statistical_score = r.statistical_score :=
  C1_detect_detectBatch_agree readyDetector zeroFeatures rfl rfl

/-- Witness for C4 at a fresh (not ready, untrained) detector and forest
and at the ready witness detector. -/
theorem C4_not_ready_errors_witness :
    (AnomalyDetector.detect mkAnomalyDetector zeroFeatures = .error .notReady ∧
      AnomalyDetector.detectBatch mkAnomalyDetector [] = .error .notReady) ∧
    (mkIsolationForest.predict [] = .error .notTrained) ∧
    (AnomalyDetector.detect readyDetector zeroFeatures ≠ .error .notReady ∧
      AnomalyDetector.detectBatch readyDetector [] ≠ .error .notReady) :=
  ⟨(C4_not_ready_errors mkAnomalyDetector zeroFeatures [] mkIsolationForest []).1 rfl,
   (C4_not_ready_errors mkAnomalyDetector zeroFeatures [] mkIsolationForest []).2.1 rfl,
   (C4_not_ready_errors readyDetector zeroFeatures [] mkIsolationForest []).2.2 rfl⟩

/-- A detector holding exactly 9 buffered samples. -/
def detector9 : AnomalyDetector :=
  { mkAnomalyDetector with trainingData := List.replicate 9 zeroFeatures }

/-- A detector holding exactly 10 buffered samples. -/
def detector10 : AnomalyDetector :=
  { mkAnomalyDetector with trainingData := List.replicate 10 zeroFeatures }

/-- Witness for C3 at concrete 9- and 10-sample buffers. -/
theorem C3_trainModel_boundary_witness :
    (AnomalyDetector.trainModel (fun _ => 0) 0 detector9 =
      (detector9, some .insufficientData)) ∧
    (∃ d', AnomalyDetector.trainModel (fun _ => 0) 0 detector10 = (d', none) ∧
      AnomalyDetector.isReady d' = true ∧ d'.lastTrainingTime = some 0) :=
  ⟨(C3_trainModel_boundary (fun _ => 0) 0 detector9).1 rfl,
   (C3_trainModel_boundary (fun _ => 0) 0 detector10).2 rfl⟩

/-- Witness for C9: a 1-sample batch (buffered without retraining) and a
101-sample batch (retraining triggered). -/
theorem C9_updateModel_buffer_and_retrain_witness :
    (AnomalyDetector.updateModel (fun _ => 0) 0 mkAnomalyDetector [zeroFeatures] =
      { mkAnomalyDetector with trainingData :=
        (((mkAnomalyDetector.trainingData ++ [zeroFeatures]).drop
          ((mkAnomalyDetector.trainingData ++ [zeroFeatures]).length - 10000))) }) ∧
    (AnomalyDetector.updateModel (fun _ => 0) 0 mkAnomalyDetector
        (List.replicate 101 zeroFeatures) =
      (AnomalyDetector.trainModel (fun _ => 0) 0
        { mkAnomalyDetector with trainingData :=
          (((mkAnomalyDetector.trainingData ++ List.replicate 101 zeroFeatures).drop
            ((mkAnomalyDetector.trainingData ++
              List.replicate 101 zeroFeatures).length - 10000))) }).1) :=
  ⟨(C9_updateModel_buffer_and_retrain (fun _ => 0) 0 mkAnomalyDetector
      [zeroFeatures]).2.2.1 (by decide),
   (C9_updateModel_buffer_and_retrain (fun _ => 0) 0 mkAnomalyDetector
      (List.replicate 101 zeroFeatures)).2.2.2 (by decide)⟩

end ThreatAI


namespace ThreatAI

/-- Evaluation rule for `jsRound` from floor bounds. -/
theorem jsRound_eq {α : Type} [LinearOrderedField α] [FloorRing α] {x : α} {z : ℤ}
    (h1 : (z : α) ≤ x + 1 / 2) (h2 : x + 1 / 2 < z + 1) : jsRound x = z := by
  unfold jsRound
  exact Int.floor_eq_iff.mpr ⟨h1, h2⟩

namespace AIAnalysisEngine

variable {α : Type} [LinearOrderedField α] [FloorRing α]

/-- The returned `risk_score` is the rounded, scaled weighted sum. -/
theorem calculateRiskAssessment_risk_score (data : ThreatData α)
    (anomaly : AnomalyDetectionRec α) (classification : ThreatClassificationRec α)
    (behavioral : BehavioralAnalysisRec α) (now : α) :
    (calculateRiskAssessment data anomaly classification behavioral now).risk_score =
      jsRound (riskWeightedScore data anomaly behavioral now * 100) := rfl

/-- The returned `risk_level` buckets the unrounded weighted sum. -/
theorem calculateRiskAssessment_risk_level (data : ThreatData α)
    (anomaly : AnomalyDetectionRec α) (classification : ThreatClassificationRec α)
    (behavioral : BehavioralAnalysisRec α) (now : α) :
    (calculateRiskAssessment data anomaly classification behavioral now).risk_level =
      mapScoreToRiskLevel (riskWeightedScore data anomaly behavioral now) := rfl

/-- The returned `mitigation_priority` is computed from the unrounded
weighted sum and the classified threat type. -/
theorem calculateRiskAssessment_mitigation (data : ThreatData α)
    (anomaly : AnomalyDetectionRec α) (classification : ThreatClassificationRec α)
    (behavioral : BehavioralAnalysisRec α) (now : α) :
    (calculateRiskAssessment data anomaly classification behavioral now).mitigation_priority =
      calculateMitigationPriority (riskWeightedScore data anomaly behavioral now)
        classification := rfl

/-- The six contributing factors reported alongside the risk score. -/
theorem calculateRiskAssessment_factors (data : ThreatData α)
    (anomaly : AnomalyDetectionRec α) (classification : ThreatClassificationRec α)
    (behavioral : BehavioralAnalysisRec α) (now : α) :
    (calculateRiskAssessment data anomaly classification behavioral now).contributing_factors =
      { severity := mapSeverityToScore (jsOrStr data.severity_level "medium")
        confidence := jsOrNum data.confidence_score 50 / 100
        anomaly := if anomaly.is_anomaly then anomaly.anomaly_score else (0.3 : α)
        behavioral := jsOrNum behavioral.deviation_score 0.5
        temporal := calculateTemporalRelevance data.last_seen now
        asset_criticality := 0.7 } := rfl

omit [FloorRing α] in
/-- Bucket characterization of `mapScoreToRiskLevel`. -/
theorem mapScoreToRiskLevel_iff (w : α) :
    (mapScoreToRiskLevel w = "critical" ↔ 0.8 ≤ w) ∧
    (mapScoreToRiskLevel w = "high" ↔ 0.6 ≤ w ∧ w < 0.8) ∧
    (mapScoreToRiskLevel w = "medium" ↔ 0.4 ≤ w ∧ w < 0.6) ∧
    (mapScoreToRiskLevel w = "low" ↔ w < 0.4) := by
  unfold mapScoreToRiskLevel
  split_ifs with h1 h2 h3
  · exact ⟨iff_of_true rfl h1,
      iff_of_false (by decide) (fun h => absurd h1 (not_le.mpr h.2)),
      iff_of_false (by decide) (fun h => absurd h1 (not_le.mpr (by linarith [h.2]))),
      iff_of_false (by decide) (fun h => absurd h1 (not_le.mpr (by linarith)))⟩
  · exact ⟨iff_of_false (by decide) (fun h => absurd h h1),
      iff_of_true rfl ⟨h2, not_le.mp h1⟩,
      iff_of_false (by decide) (fun h => absurd h2 (not_le.mpr h.2)),
      iff_of_false (by decide) (fun h => absurd h2 (not_le.mpr (by linarith)))⟩
  · exact ⟨iff_of_false (by decide) (fun h => absurd h h1),
      iff_of_false (by decide) (fun h => absurd h.1 h2),
      iff_of_true rfl ⟨h3, not_le.mp h2⟩,
      iff_of_false (by decide) (fun h => absurd h3 (not_le.mpr h))⟩
  · exact ⟨iff_of_false (by decide) (fun h => absurd h h1),
      iff_of_false (by decide) (fun h => absurd h.1 h2),
      iff_of_false (by decide) (fun h => absurd h.1 h3),
      iff_of_true rfl (not_le.mp h3)⟩

end AIAnalysisEngine

/-- Concrete record used by the C2 and C8 counterexamples: severity
`critical`, confidence 70.5. -/
def cexData : ThreatData ℚ :=
  { id := none
    severity_level := some "critical"
    confidence_score := some (141 / 2)
    last_seen := some 0 }

/-- The same record with no `last_seen` timestamp. -/
def cexDataNoSeen : ThreatData ℚ :=
  { cexData with last_seen := none }

/-- A flagged anomaly with score 0.8. -/
def cexAnomaly : AnomalyDetectionRec ℚ :=
  { is_anomaly := true
    anomaly_score := 4 / 5
    anomaly_factors := []
    baseline_deviation := { overall := 0, per_feature := [], max_deviation := none } }

/-- A classification with an unrecognized threat type (multiplier 1.0). -/
def cexClassification : ThreatClassificationRec ℚ :=
  { threat_type := "other"
    confidence := 1 / 2
    probability_distribution := []
    attack_vectors := [] }

/-- A behavioral record with no deviation score. -/
def cexBehavioral : BehavioralAnalysisRec ℚ :=
  { behavior_pattern := ""
    temporal_analysis := 0
    network_behavior := 0
    user_behavior := 0
    deviation_score := none }

/-- The weighted score at the C2 counterexample input is exactly 0.796. -/
theorem cex_weighted_score :
    AIAnalysisEngine.riskWeightedScore cexData cexAnomaly cexBehavioral 0 =
      199 / 250 := by
  norm_num +decide [AIAnalysisEngine.riskWeightedScore,
    AIAnalysisEngine.mapSeverityToScore, AIAnalysisEngine.calculateTemporalRelevance,
    jsOrNum, jsOrStr, cexData, cexAnomaly, cexBehavioral]

/-- **C2** (counterexample) At severity `critical`, confidence 70.5, a
flagged anomaly of score 0.8, no behavioral score and `last_seen = now`,
the weighted score is 0.796: the returned `risk_score` is 80 (so the claim
demands `risk_level = "critical"`), yet the code returns `"high"`, because
`risk_level` is computed from the unrounded weighted score 0.796 < 0.8. -/
theorem C2_counterexample :
    (AIAnalysisEngine.calculateRiskAssessment cexData cexAnomaly cexClassification
      cexBehavioral 0).risk_score = 80 ∧
    (AIAnalysisEngine.calculateRiskAssessment cexData cexAnomaly cexClassification
      cexBehavioral 0).risk_level = "high" ∧
    (AIAnalysisEngine.calculateRiskAssessment cexData cexAnomaly cexClassification
      cexBehavioral 0).risk_level ≠ "critical" := by
  rw [AIAnalysisEngine.calculateRiskAssessment_risk_score,
    AIAnalysisEngine.calculateRiskAssessment_risk_level, cex_weighted_score]
  refine ⟨jsRound_eq (by norm_num) (by norm_num), ?_, ?_⟩ <;>
    norm_num +decide [AIAnalysisEngine.mapScoreToRiskLevel]

/-- **C2** (amended) `risk_score` equals the weighted sum of the six
factors scaled by 100 and rounded to an integer, but `risk_level` is
determined by the *unrounded* weighted sum `w` (not by the integer
`risk_score`): `"critical"` iff `w ≥ 0.8`, `"high"` iff `0.6 ≤ w < 0.8`,
`"medium"` iff `0.4 ≤ w < 0.6`, and `"low"` iff `w < 0.4`; at rounding
boundaries this disagrees with bucketing the integer `risk_score`. -/
theorem C2_risk_score_and_level {α : Type} [LinearOrderedField α] [FloorRing α]
    (data : ThreatData α) (anomaly : AnomalyDetectionRec α)
    (classification : ThreatClassificationRec α)
    (behavioral : BehavioralAnalysisRec α) (now : α) :
    (AIAnalysisEngine.calculateRiskAssessment data anomaly classification behavioral
        now).risk_score =
      jsRound (AIAnalysisEngine.riskWeightedScore data anomaly behavioral now * 100) ∧
    (AIAnalysisEngine.calculateRiskAssessment data anomaly classification behavioral
        now).risk_level =
      AIAnalysisEngine.mapScoreToRiskLevel
        (AIAnalysisEngine.riskWeightedScore data anomaly behavioral now) ∧
    (∀ w : α,
      (AIAnalysisEngine.mapScoreToRiskLevel w = "critical" ↔ 0.8 ≤ w) ∧
      (AIAnalysisEngine.mapScoreToRiskLevel w = "high" ↔ 0.6 ≤ w ∧ w < 0.8) ∧
      (AIAnalysisEngine.mapScoreToRiskLevel w = "medium" ↔ 0.4 ≤ w ∧ w < 0.6) ∧
      (AIAnalysisEngine.mapScoreToRiskLevel w = "low" ↔ w < 0.4)) :=
  ⟨AIAnalysisEngine.calculateRiskAssessment_risk_score data anomaly classification
      behavioral now,
   AIAnalysisEngine.calculateRiskAssessment_risk_level data anomaly classification
      behavioral now,
   AIAnalysisEngine.mapScoreToRiskLevel_iff⟩

/-- The weighted score at the C8 counterexample input (no `last_seen`)
is exactly 0.746. -/
theorem cexNoSeen_weighted_score :
    AIAnalysisEngine.riskWeightedScore cexDataNoSeen cexAnomaly cexBehavioral 0 =
      373 / 500 := by
  norm_num +decide [AIAnalysisEngine.riskWeightedScore,
    AIAnalysisEngine.mapSeverityToScore, AIAnalysisEngine.calculateTemporalRelevance,
    jsOrNum, jsOrStr, cexData, cexDataNoSeen, cexAnomaly, cexBehavioral]

/-- **C8** (counterexample) At weighted score 0.746 (risk_score 75) with
an unrecognized threat type (multiplier 1.0), the code rounds twice:
`round(0.746·10) = 7`, so `mitigation_priority = 7`, while the claimed
formula `clamp(round(risk_score/10 · m))` gives `round(7.5) = 8`. -/
theorem C8_counterexample :
    (AIAnalysisEngine.calculateRiskAssessment cexDataNoSeen cexAnomaly
      cexClassification cexBehavioral 0).risk_score = 75 ∧
    (AIAnalysisEngine.calculateRiskAssessment cexDataNoSeen cexAnomaly
      cexClassification cexBehavioral 0).mitigation_priority = 7 ∧
    min (10 : ℤ) (max 0 (jsRound
      (((AIAnalysisEngine.calculateRiskAssessment cexDataNoSeen cexAnomaly
          cexClassification cexBehavioral 0).risk_score : ℚ) / 10 *
        AIAnalysisEngine.threatTypeMultiplier cexClassification.threat_type))) = 8 := by
  have hrs : (AIAnalysisEngine.calculateRiskAssessment cexDataNoSeen cexAnomaly
      cexClassification cexBehavioral 0).risk_score = 75 := by
    rw [AIAnalysisEngine.calculateRiskAssessment_risk_score, cexNoSeen_weighted_score]
    exact jsRound_eq (by norm_num) (by norm_num)
  have hmult : AIAnalysisEngine.threatTypeMultiplier
      cexClassification.threat_type = (1 : ℚ) := by
    norm_num +decide [AIAnalysisEngine.threatTypeMultiplier, cexClassification]
  refine ⟨hrs, ?_, ?_⟩
  · rw [AIAnalysisEngine.calculateRiskAssessment_mitigation, cexNoSeen_weighted_score]
    unfold AIAnalysisEngine.calculateMitigationPriority
    rw [hmult, show jsRound ((373 : ℚ) / 500 * 10) = 7 from
      jsRound_eq (by norm_num) (by norm_num)]
    dsimp only
    rw [show ((7 : ℤ) : ℚ) * 1 = 7 by norm_num,
      show jsRound (7 : ℚ) = 7 from jsRound_eq (by norm_num) (by norm_num)]
    omega
  · rw [hrs, hmult, show ((75 : ℤ) : ℚ) / 10 * 1 = 15 / 2 by norm_num,
      show jsRound ((15 : ℚ) / 2) = 8 from jsRound_eq (by norm_num) (by norm_num)]
    omega

/-- **C8** (amended) `mitigation_priority` is `min(10, round(round(w·10)·m))`
where `w` is the *unrounded* weighted score (0–1 scale, not
`risk_score/10`) and `m` the threat-type multiplier; the double rounding
can disagree with `round(risk_score/10·m)` and there is no clamp from
below. The multiplier table itself is as claimed: ransomware 1.5, apt 1.3,
malware and botnet 1.2, phishing 1.1, anything else 1.0. -/
theorem C8_mitigation_priority {α : Type} [LinearOrderedField α] [FloorRing α]
    (data : ThreatData α) (anomaly : AnomalyDetectionRec α)
    (classification : ThreatClassificationRec α)
    (behavioral : BehavioralAnalysisRec α) (now : α) :
    (AIAnalysisEngine.calculateRiskAssessment data anomaly classification behavioral
        now).mitigation_priority =
      min 10 (jsRound
        ((jsRound (AIAnalysisEngine.riskWeightedScore data anomaly behavioral now
          * 10) : α) *
          AIAnalysisEngine.threatTypeMultiplier classification.threat_type)) ∧
    AIAnalysisEngine.threatTypeMultiplier "ransomware" = (1.5 : α) ∧
    AIAnalysisEngine.threatTypeMultiplier "apt" = (1.3 : α) ∧
    AIAnalysisEngine.threatTypeMultiplier "malware" = (1.2 : α) ∧
    AIAnalysisEngine.threatTypeMultiplier "botnet" = (1.2 : α) ∧
    AIAnalysisEngine.threatTypeMultiplier "phishing" = (1.1 : α) ∧
    (∀ t : String, t ≠ "malware" → t ≠ "ransomware" → t ≠ "apt" → t ≠ "phishing" →
      t ≠ "botnet" → AIAnalysisEngine.threatTypeMultiplier t = (1 : α)) := by
  refine ⟨rfl, ?_, ?_, ?_, ?_, ?_, ?_⟩
  · norm_num +decide [AIAnalysisEngine.threatTypeMultiplier]
  · norm_num +decide [AIAnalysisEngine.threatTypeMultiplier]
  · norm_num +decide [AIAnalysisEngine.threatTypeMultiplier]
  · norm_num +decide [AIAnalysisEngine.threatTypeMultiplier]
  · norm_num +decide [AIAnalysisEngine.threatTypeMultiplier]
  · intro t h1 h2 h3 h4 h5
    simp [AIAnalysisEngine.threatTypeMultiplier, h1, h2, h3, h4, h5]
    norm_num

/-- Witness for C8 at the concrete counterexample input and the threat
type `"other"`. -/
theorem C8_mitigation_priority_witness :
    (AIAnalysisEngine.calculateRiskAssessment cexData cexAnomaly cexClassification
        cexBehavioral (0 : ℚ)).mitigation_priority =
      min 10 (jsRound
        ((jsRound (AIAnalysisEngine.riskWeightedScore cexData cexAnomaly
          cexBehavioral 0 * 10) : ℚ) *
          AIAnalysisEngine.threatTypeMultiplier cexClassification.threat_type)) ∧
    AIAnalysisEngine.threatTypeMultiplier "other" = (1 : ℚ) :=
  ⟨(C8_mitigation_priority cexData cexAnomaly cexClassification cexBehavioral 0).1,
   (C8_mitigation_priority cexData cexAnomaly cexClassification cexBehavioral
      0).2.2.2.2.2.2 "other" (by decide) (by decide) (by decide) (by decide)
      (by decide)⟩

namespace AIAnalysisEngine

variable {α : Type} [LinearOrderedField α] [FloorRing α]

/-- Unfolding rule for the composite score. -/
theorem calculateCompositeScore_score (analysis : Analysis α) :
    (calculateCompositeScore analysis).score =
      jsRound (((analysis.risk_assessment.risk_score : α) / 100 * 0.4 +
        analysis.anomaly_detection.anomaly_score * 0.25 +
        analysis.threat_classification.confidence * 0.25 +
        jsOrNum analysis.behavioral_analysis.deviation_score 0.5 * 0.1) * 100) := rfl

/-- Unfolding rule for the composite confidence. -/
theorem calculateCompositeScore_confidence (analysis : Analysis α) :
    (calculateCompositeScore analysis).confidence =
      jsRound (max 0.1 (1 - calculateVariance
        [(analysis.risk_assessment.risk_score : α) / 100,
         analysis.anomaly_detection.anomaly_score,
         analysis.threat_classification.confidence,
         jsOrNum analysis.behavioral_analysis.deviation_score 0.5]) * 100) := rfl

end AIAnalysisEngine

/-- Analysis record used by the C7 counterexample: all component scores 0
with the behavioral deviation score *present and equal to 0*. -/
def cexAnalysis : Analysis ℚ :=
  { threat_id := ""
    risk_assessment :=
      { risk_score := 0
        risk_level := "low"
        contributing_factors :=
          { severity := 0, confidence := 0, anomaly := 0, behavioral := 0,
            temporal := 0, asset_criticality := 0 }
        mitigation_priority := 0 }
    anomaly_detection :=
      { is_anomaly := false, anomaly_score := 0, anomaly_factors := []
        baseline_deviation := { overall := 0, per_feature := [], max_deviation := none } }
    threat_classification :=
      { threat_type := "other", confidence := 0, probability_distribution := []
        attack_vectors := [] }
    behavioral_analysis :=
      { behavior_pattern := "", temporal_analysis := 0, network_behavior := 0
        user_behavior := 0, deviation_score := some 0 }
    composite_score := 0
    confidence_level := 0
    recommendations := [] }

/-- **C7** (counterexample) With every component 0 and the behavioral
deviation *present with value 0*, the code substitutes 0.5 for the falsy 0
(JS `|| 0.5`) and returns composite_score 5, while the claimed formula
(defaulting only when absent, hence using the present 0) yields 0. -/
theorem C7_counterexample :
    (AIAnalysisEngine.calculateCompositeScore cexAnalysis).score = 5 ∧
    jsRound ((100 : ℚ) *
      ((cexAnalysis.risk_assessment.risk_score : ℚ) / 100 * 0.4 +
        cexAnalysis.anomaly_detection.anomaly_score * 0.25 +
        cexAnalysis.threat_classification.confidence * 0.25 +
        cexAnalysis.behavioral_analysis.deviation_score.getD 0.5 * 0.1)) = 0 ∧
    (5 : ℤ) ≠ 0 := by
  refine ⟨?_, ?_, by decide⟩
  · rw [AIAnalysisEngine.calculateCompositeScore_score,
      show ((cexAnalysis.risk_assessment.risk_score : ℚ) / 100 * 0.4 +
        cexAnalysis.anomaly_detection.anomaly_score * 0.25 +
        cexAnalysis.threat_classification.confidence * 0.25 +
        jsOrNum cexAnalysis.behavioral_analysis.deviation_score 0.5 * 0.1) * 100 = 5
        from by norm_num [cexAnalysis, jsOrNum]]
    exact jsRound_eq (by norm_num) (by norm_num)
  · rw [show (100 : ℚ) *
      ((cexAnalysis.risk_assessment.risk_score : ℚ) / 100 * 0.4 +
        cexAnalysis.anomaly_detection.anomaly_score * 0.25 +
        cexAnalysis.threat_classification.confidence * 0.25 +
        cexAnalysis.behavioral_analysis.deviation_score.getD 0.5 * 0.1) = 0
        from by norm_num [cexAnalysis]]
    exact jsRound_eq (by norm_num) (by norm_num)

/-- **C7** (amended) `composite_score` is the rounded, scaled weighted
combination `0.4·(risk_score/100) + 0.25·anomaly + 0.25·classification
confidence + 0.1·behavioral deviation`, where the behavioral deviation
defaults to 0.5 when absent *or when the reported value is 0* (JS `||`);
`confidence_level` is `round(100·max(0.1, 1 − V))` with `V` the population
variance of the four component scores (same default). -/
theorem C7_composite_and_confidence {α : Type} [LinearOrderedField α] [FloorRing α]
    (analysis : Analysis α) :
    (AIAnalysisEngine.calculateCompositeScore analysis).score =
      jsRound (100 * ((analysis.risk_assessment.risk_score : α) / 100 * 0.4 +
        analysis.anomaly_detection.anomaly_score * 0.25 +
        analysis.threat_classification.confidence * 0.25 +
        jsOrNum analysis.behavioral_analysis.deviation_score 0.5 * 0.1)) ∧
    (AIAnalysisEngine.calculateCompositeScore analysis).confidence =
      jsRound (100 * max 0.1 (1 - AIAnalysisEngine.calculateVariance
        [(analysis.risk_assessment.risk_score : α) / 100,
         analysis.anomaly_detection.anomaly_score,
         analysis.threat_classification.confidence,
         jsOrNum analysis.behavioral_analysis.deviation_score 0.5])) ∧
    (∀ x1 x2 x3 x4 : α,
      AIAnalysisEngine.calculateVariance [x1, x2, x3, x4] =
        ((x1 - (x1 + x2 + x3 + x4) / 4) ^ 2 + (x2 - (x1 + x2 + x3 + x4) / 4) ^ 2 +
         (x3 - (x1 + x2 + x3 + x4) / 4) ^ 2 + (x4 - (x1 + x2 + x3 + x4) / 4) ^ 2) / 4) := by
  refine ⟨?_, ?_, ?_⟩
  · rw [AIAnalysisEngine.calculateCompositeScore_score]
    exact congrArg jsRound (by ring)
  · rw [AIAnalysisEngine.calculateCompositeScore_confidence]
    exact congrArg jsRound (by ring)
  · intro x1 x2 x3 x4
    unfold AIAnalysisEngine.calculateVariance
    simp [List.sum_cons, List.sum_nil]
    ring

/-- **C10** The `is_anomaly` flag in the ThreatAnalysis produced by
`performAnalysis` is recomputed by the engine as
`anomaly_score > engine.anomalyThreshold` (default 0.7), independently of
the detector's own flag, which uses the detector's threshold (default
0.6): for every combined score in `(0.6, 0.7]`, `detect` reports
`is_anomaly = true` while `performAnalysis` reports `is_anomaly = false`
under the default configuration. -/
theorem C10_engine_recomputes_anomaly_flag (d : AnomalyDetector) (f : Features)
    (r : AnomalyResult ℝ) (hd : AnomalyDetector.detect d f = .ok r)
    (hthr : d.anomalyThreshold = 0.6) (h1 : 0.6 < r.score) (h2 : r.score ≤ 0.7)
    (cfg : EngineConfig ℝ) (hcfg : cfg.anomalyThreshold = 0.7)
    (data : ThreatData ℝ) (cls : ClassificationResult ℝ) (beh : BehavioralResult ℝ)
    (now : ℝ) (nowStr : String) :
    r.is_anomaly = true ∧
    (AIAnalysisEngine.performAnalysis cfg data r cls beh now
      nowStr).anomaly_detection.is_anomaly = false := by
  constructor
  · unfold AnomalyDetector.detect at hd
    split_ifs at hd with hready
    dsimp only at hd
    cases hpred : d.isolationForest.predict [AnomalyDetector.prepareFeatureVector f] with
    | error e =>
      rw [hpred] at hd
      exact absurd hd (by simp)
    | ok scores =>
      rw [hpred] at hd
      dsimp only at hd
      rw [Except.ok.injEq] at hd
      subst hd
      dsimp only at h1 ⊢
      rw [hthr, decide_eq_true_eq]
      exact h1
  · dsimp only [AIAnalysisEngine.performAnalysis]
    rw [hcfg, decide_eq_false_iff_not]
    exact not_lt.mpr h2

/-- The all-absent feature object vectorizes to ten zeros. -/
theorem prepareFeatureVector_zero :
    AnomalyDetector.prepareFeatureVector zeroFeatures =
      [0, 0, 0, 0, 0, 0, 0, 0, 0, 0] := rfl

/-- The single-leaf witness forest scores every row as exactly 1. -/
theorem rowScore_trainedForest (x : List ℝ) : trainedForest.rowScore x = 1 := by
  have h0 : IsolationForest.pathLength x (.leaf 1 0) 0 = 0 := by
    unfold IsolationForest.pathLength
    rw [show ((1 : ℕ) : ℝ) = 1 from by norm_num,
      IsolationForest.c_of_le_one le_rfl]
    norm_num
  unfold IsolationForest.rowScore
  show (2 : ℝ) ^ (-(([IsoTree.leaf 1 0].map
    (fun t => IsolationForest.pathLength x t 0)).sum / ((1 : ℕ) : ℝ)) /
      IsolationForest.c ((256 : ℕ) : ℝ)) = 1
  rw [List.map_cons, List.map_nil, List.sum_cons, List.sum_nil, h0]
  norm_num [Real.rpow_zero]

/-- The neutral baseline entry contributes 0 for the value 0. -/
theorem statFeatureContribution_base :
    AnomalyDetector.statFeatureContribution baseStat 0 = 0 := by
  unfold AnomalyDetector.statFeatureContribution
  norm_num [baseStat]

/-- The statistical score of the zero vector against the neutral baseline. -/
theorem detectStatisticalAnomaly_zero :
    AnomalyDetector.detectStatisticalAnomaly (List.replicate 10 baseStat)
      [0, 0, 0, 0, 0, 0, 0, 0, 0, 0] = 0 := by
  unfold AnomalyDetector.detectStatisticalAnomaly
  rw [if_neg (by simp [List.replicate])]
  simp [List.replicate, statFeatureContribution_base]

/-- No factor reaches |z| > 2 on the zero vector. -/
theorem identifyAnomalyFactors_zero :
    AnomalyDetector.identifyAnomalyFactors (List.replicate 10 baseStat)
      [0, 0, 0, 0, 0, 0, 0, 0, 0, 0] = [] := by
  unfold AnomalyDetector.identifyAnomalyFactors
  norm_num [List.replicate, baseStat, List.filterMap]

/-- The baseline deviation of the zero vector against the neutral baseline. -/
theorem calculateBaselineDeviation_zero :
    AnomalyDetector.calculateBaselineDeviation (List.replicate 10 baseStat)
      [0, 0, 0, 0, 0, 0, 0, 0, 0, 0] =
      { overall := 0, per_feature := List.replicate 10 0,
        max_deviation := some 0 } := by
  unfold AnomalyDetector.calculateBaselineDeviation
  rw [if_neg (by simp [List.replicate])]
  norm_num [List.replicate, baseStat, listMax]

/-- Full evaluation of `detect` at the ready witness detector: the
combined score is exactly 0.7 = 1·0.7 + 0·0.3, on the boundary of the
detector threshold 0.6 and the engine threshold 0.7. -/
theorem detect_readyDetector :
    AnomalyDetector.detect readyDetector zeroFeatures = .ok
      { score := 0.7, is_anomaly := true, isolation_score := 1,
        statistical_score := 0, factors := [],
        deviation := { overall := 0, per_feature := (List.replicate 10 0),
                       max_deviation := some 0 },
        threshold := 0.6 } := by
  have hpred : readyDetector.isolationForest.predict
      [AnomalyDetector.prepareFeatureVector zeroFeatures] = .ok [1] := by
    show trainedForest.predict [AnomalyDetector.prepareFeatureVector zeroFeatures] = .ok [1]
    unfold IsolationForest.predict
    rw [if_pos (show trainedForest.trained = true from rfl), List.map_cons,
      List.map_nil, rowScore_trainedForest]
  unfold AnomalyDetector.detect
  rw [if_neg (by simp [readyDetector])]
  dsimp only
  rw [hpred]
  dsimp only
  rw [Except.ok.injEq, AnomalyResult.mk.injEq]
  rw [prepareFeatureVector_zero,
    show readyDetector.statisticalBaseline = List.replicate 10 baseStat from rfl]
  refine ⟨by norm_num [detectStatisticalAnomaly_zero], ?_, by norm_num,
    by rw [detectStatisticalAnomaly_zero], by rw [identifyAnomalyFactors_zero], ?_, rfl⟩
  · rw [detectStatisticalAnomaly_zero]
    rw [show (List.headD [(1 : ℝ)] 0) * 0.7 + 0 * 0.3 = 0.7 from by norm_num]
    rw [decide_eq_true_eq]
    show (readyDetector.anomalyThreshold : ℝ) < 0.7
    norm_num [readyDetector]
  · rw [calculateBaselineDeviation_zero]

/-- A minimal classifier collaborator result for the C10 witness. -/
def witClassification : ClassificationResult ℝ := { type := "other", confidence := 0 }

/-- A minimal behavioral collaborator result for the C10 witness. -/
def witBehavioral : BehavioralResult ℝ := { temporal := 0, network := 0, user := 0 }

/-- Witness for C10: at the ready witness detector the combined score is
exactly 0.7, so the detector flags the anomaly while the engine does not. -/
theorem C10_engine_recomputes_anomaly_flag_witness :
    ({ score := 0.7, is_anomaly := true, isolation_score := 1,
       statistical_score := 0, factors := [],
       deviation := { overall := 0, per_feature := (List.replicate 10 0),
                      max_deviation := some 0 },
       threshold := 0.6 } : AnomalyResult ℝ).is_anomaly = true ∧
    (AIAnalysisEngine.performAnalysis (mkEngineConfig : EngineConfig ℝ)
      ({} : ThreatData ℝ)
      { score := 0.7, is_anomaly := true, isolation_score := 1,
        statistical_score := 0, factors := [],
        deviation := { overall := 0, per_feature := (List.replicate 10 0),
                       max_deviation := some 0 },
        threshold := 0.6 }
      witClassification witBehavioral (0 : ℝ) "").anomaly_detection.is_anomaly = false :=
  C10_engine_recomputes_anomaly_flag readyDetector zeroFeatures _
    detect_readyDetector rfl (by norm_num) (by norm_num) mkEngineConfig rfl
    {} witClassification witBehavioral 0 ""

end ThreatAI
